import Mathlib

/-!
Shallow embedding of the TMC5160 driver core (`src/src/lib.rs`).

The SPI bus, the chip-select pin and the optional enable pin are modelled
by explicit scripts inside the driver state: `busScript` prescribes the
outcome of each successive 5-byte transfer (`none` = transfer error,
`some rx` = the received frame), and `csScript` / `enScript` prescribe
whether each successive pin-set operation fails (`true` = the pin fails
to change state).  Every transmitted 5-byte frame is recorded in
`txTrace`.  The `f32`/`f64` arithmetic of the source is embedded as exact
rational arithmetic; the Rust `as u32` / `as i32` casts on floats are the
saturating truncation-toward-zero casts `u32cast` / `i32cast`.
-/

namespace Tmc5160

/-- Error type for the TMC5160, after the `Error<E>` enum in the source.
The underlying bus error payload `E` is abstracted away. -/
inductive Err where
  | Spi : Err
  | PinError : Err
deriving DecidableEq, Repr

/-- Data exchange packet, after `DataPacket`.  `status` keeps the raw
first received byte (the source wraps it in the one-byte `SpiStatus`
bitfield of the `registers` module). -/
structure DataPacket where
  status : Nat
  data : Nat
  debug : List Nat
deriving DecidableEq, Repr

/-- The driver state: the fields of the `Tmc5160` struct that the claims
touch, together with the scripted environment (bus and pins). -/
structure St where
  busScript : List (Option (List Nat))
  csScript : List Bool
  enScript : List Bool
  csLevel : Bool
  enLevel : Bool
  txTrace : List (List Nat)
  v_max : ℚ
  status : Nat
  debug : List Nat
  clock : ℚ
  step_count : ℚ
  en_present : Bool
  en_inverted : Bool
deriving DecidableEq, Repr

/-- Byte `i` of a received frame (out-of-range reads as 0; a real frame
byte is a `u8`, hence the reduction mod 256). -/
def byteAt (bs : List Nat) (i : Nat) : Nat := bs.getD i 0 % 256

/-- `u32::from_be_bytes` on four bytes. -/
def fromBeBytes (b0 b1 b2 b3 : Nat) : Nat :=
  ((b0 * 256 + b1) * 256 + b2) * 256 + b3

/-- `u32::to_be_bytes`. -/
def toBeBytes (v : Nat) : List Nat :=
  [v / 2 ^ 24 % 256, v / 2 ^ 16 % 256, v / 2 ^ 8 % 256, v % 256]

/-- `i32::to_be_bytes` (two-s-complement encoding). -/
def toBeBytesI32 (x : Int) : List Nat :=
  toBeBytes ((x % (2 ^ 32 : Int)).toNat)

/-- Truncation toward zero of a rational. -/
def truncQ (q : ℚ) : Int := if q < 0 then ⌈q⌉ else ⌊q⌋

/-- The saturating Rust `as u32` cast on a float, on the rational model. -/
def u32cast (q : ℚ) : Nat := (max 0 (min ((2 : Int) ^ 32 - 1) (truncQ q))).toNat

/-- The saturating Rust `as i32` cast on a float, on the rational model. -/
def i32cast (q : ℚ) : Int := max (-(2 ^ 31)) (min (2 ^ 31 - 1) (truncQ q))

/-- Reinterpret a `u32` as an `i32` (Rust `as i32` on integers). -/
def i32ofU32 (n : Nat) : Int := if n < 2 ^ 31 then (n : Int) else (n : Int) - 2 ^ 32

/-- One chip-select pin set operation (`cs.set_low()` / `cs.set_high()`):
consumes one entry of `csScript`; on failure the level is unchanged.
Returns whether the operation succeeded. -/
def csSet (lvl : Bool) (s : St) : Bool × St :=
  match s.csScript with
  | [] => (true, { s with csLevel := lvl })
  | fail :: rest =>
    if fail then (false, { s with csScript := rest })
    else (true, { s with csScript := rest, csLevel := lvl })

/-- One enable-pin set operation, same conventions as `csSet`. -/
def enSet (lvl : Bool) (s : St) : Bool × St :=
  match s.enScript with
  | [] => (true, { s with enLevel := lvl })
  | fail :: rest =>
    if fail then (false, { s with enScript := rest })
    else (true, { s with enScript := rest, enLevel := lvl })

/-- One full-duplex 5-byte bus transfer (`spi.transfer`): records the
transmitted frame, consumes one entry of `busScript`, and either fails or
returns the received frame. An exhausted script behaves as a failure. -/
def transfer (tx : List Nat) (s : St) : Except Err (List Nat) × St :=
  match s.busScript with
  | [] => (Except.error Err.Spi, { s with txTrace := s.txTrace ++ [tx] })
  | none :: rest =>
    (Except.error Err.Spi, { s with busScript := rest, txTrace := s.txTrace ++ [tx] })
  | some rx :: rest =>
    (Except.ok rx, { s with busScript := rest, txTrace := s.txTrace ++ [tx] })

/-- The 5-byte frame transmitted by a read exchange for address byte `a`. -/
def readFrame (a : Nat) : List Nat := [a, 0, 0, 0, 0]

/-- The 5-byte frame transmitted by a write exchange: address with the
top bit set, followed by the four data bytes. -/
def writeFrame (a : Nat) (val : List Nat) : List Nat :=
  [a ||| 0x80, byteAt val 0, byteAt val 1, byteAt val 2, byteAt val 3]

/-- `read_io`: assert chip-select (result ignored), transfer
`[addr,0,0,0,0]`; on transfer failure the error propagates at once (the
`?` operator) — note the deassertion below it is then skipped; on success
deassert chip-select (result ignored) and build the packet from the
received frame. -/
def read_io (a : Nat) (s : St) : Except Err DataPacket × St :=
  let s1 := (csSet false s).2
  match transfer (readFrame a) s1 with
  | (Except.error e, s2) => (Except.error e, s2)
  | (Except.ok response, s2) =>
    let s3 := (csSet true s2).2
    (Except.ok
      { status := byteAt response 0
        data := fromBeBytes (byteAt response 1) (byteAt response 2)
          (byteAt response 3) (byteAt response 4)
        debug := [byteAt response 0, byteAt response 1, byteAt response 2,
          byteAt response 3, byteAt response 4] }, s3)

/-- `read_register`: a dummy `read_io` whose packet is discarded, then a
second `read_io` for the same address whose packet is returned. -/
def read_register (a : Nat) (s : St) : Except Err DataPacket × St :=
  match read_io a s with
  | (Except.error e, s1) => (Except.error e, s1)
  | (Except.ok _, s1) => read_io a s1

/-- `write_register`: a single exchange of `writeFrame a val`; the
returned packet field `debug` is the transmitted frame, its `data` the last
four received bytes big-endian.  As in `read_io`, a transfer failure
propagates before the chip-select deassertion. -/
def write_register (a : Nat) (val : List Nat) (s : St) :
    Except Err DataPacket × St :=
  let s1 := (csSet false s).2
  let buffer := writeFrame a val
  match transfer buffer s1 with
  | (Except.error e, s2) => (Except.error e, s2)
  | (Except.ok response, s2) =>
    let s3 := (csSet true s2).2
    (Except.ok
      { status := byteAt response 0
        data := fromBeBytes (byteAt response 1) (byteAt response 2)
          (byteAt response 3) (byteAt response 4)
        debug := buffer }, s3)

/-- `enable`: if an enable pin is attached, drive it low (or high when
inverted); a pin failure is surfaced as `PinError`. -/
def enable (s : St) : Except Err Unit × St :=
  if s.en_present then
    let r := enSet s.en_inverted s
    if r.1 then (Except.ok (), r.2) else (Except.error Err.PinError, r.2)
  else (Except.ok (), s)

/-- `disable`: the opposite level of `enable`. -/
def disable (s : St) : Except Err Unit × St :=
  if s.en_present then
    let r := enSet (!s.en_inverted) s
    if r.1 then (Except.ok (), r.2) else (Except.error Err.PinError, r.2)
  else (Except.ok (), s)

namespace Registers

/-- Modelled from the spec: the register address constants live in the
`registers` module (`src/registers.rs`), which is not among the sources;
the spec records only that every register is an enumerated 7-bit code
(0–0x7F) shared between reads and writes.  The constants below use the
documented address codes of the chip; the development depends only on their
being distinct 7-bit values. -/
def XACTUAL : Nat := 0x21

/-- VACTUAL register address code.  See `XACTUAL` for provenance. -/
def VACTUAL : Nat := 0x22

/-- A1 register address code.  See `XACTUAL` for provenance. -/
def A1 : Nat := 0x24

/-- AMAX register address code.  See `XACTUAL` for provenance. -/
def AMAX : Nat := 0x26

/-- VMAX register address code.  See `XACTUAL` for provenance. -/
def VMAX : Nat := 0x27

/-- DMAX register address code.  See `XACTUAL` for provenance. -/
def DMAX : Nat := 0x28

/-- D1 register address code.  See `XACTUAL` for provenance. -/
def D1 : Nat := 0x2A

/-- XTARGET register address code.  See `XACTUAL` for provenance. -/
def XTARGET : Nat := 0x2D

end Registers

/-- `speed_from_hz`: the Hz-to-ticks conversion of the source,
`(speed_hz / (clock / 16_777_216.0) * step_count) as u32`. -/
def speed_from_hz (s : St) (speed_hz : ℚ) : Nat :=
  u32cast (speed_hz / (s.clock / 16777216) * s.step_count)

/-- `accel_from_hz`: the Hz-per-second-to-ticks conversion of the source,
`(accel / (clock * clock) * (512.0 * 256.0) * 16_777_216.0 * step_count) as u32`. -/
def accel_from_hz (s : St) (accel_hz_per_s : ℚ) : Nat :=
  u32cast (accel_hz_per_s / (s.clock * s.clock) * (512 * 256) * 16777216 * s.step_count)

/-- `set_velocity`: store `v_max`, convert, and write the VMAX register. -/
def set_velocity (velocity : ℚ) (s : St) : Except Err DataPacket × St :=
  let s0 := { s with v_max := velocity }
  let v := speed_from_hz s0 velocity
  match write_register Registers.VMAX (toBeBytes v) s0 with
  | (Except.error e, s1) => (Except.error e, s1)
  | (Except.ok p, s1) => (Except.ok p, { s1 with status := p.status })

/-- `set_acceleration`: one conversion, then writes of the same bytes to
AMAX, DMAX, A1 and D1, each behind the `?` operator. -/
def set_acceleration (acceleration : ℚ) (s : St) : Except Err DataPacket × St :=
  let v := toBeBytes (accel_from_hz s acceleration)
  match write_register Registers.AMAX v s with
  | (Except.error e, s1) => (Except.error e, s1)
  | (Except.ok _, s1) =>
    match write_register Registers.DMAX v s1 with
    | (Except.error e, s2) => (Except.error e, s2)
    | (Except.ok _, s2) =>
      match write_register Registers.A1 v s2 with
      | (Except.error e, s3) => (Except.error e, s3)
      | (Except.ok _, s3) =>
        match write_register Registers.D1 v s3 with
        | (Except.error e, s4) => (Except.error e, s4)
        | (Except.ok p, s4) => (Except.ok p, { s4 with status := p.status })

/-- `move_to`: enable the motor, convert the target with
`(target * step_count) as i32`, and write XTARGET. -/
def move_to (target : ℚ) (s : St) : Except Err DataPacket × St :=
  match enable s with
  | (Except.error e, s1) => (Except.error e, s1)
  | (Except.ok _, s1) =>
    let t := i32cast (target * s1.step_count)
    match write_register Registers.XTARGET (toBeBytesI32 t) s1 with
    | (Except.error e, s2) => (Except.error e, s2)
    | (Except.ok p, s2) => (Except.ok p, { s2 with status := p.status })

/-- `get_position`: read XACTUAL and scale `(data as i32) as f32 / step_count`. -/
def get_position (s : St) : Except Err ℚ × St :=
  match read_register Registers.XACTUAL s with
  | (Except.error e, s1) => (Except.error e, s1)
  | (Except.ok p, s1) => (Except.ok ((i32ofU32 p.data : ℚ) / s1.step_count), s1)

/-- The velocity decoding closure inside `get_velocity`. -/
def decodeVelocity (clock step_count : ℚ) (raw : Nat) : ℚ :=
  if raw &&& 0x800000 = 0x800000 then
    -(((8388607 - ((raw &&& 0x7FFFFF : Nat) : Int) : Int) : ℚ) / step_count
      * (clock / 16777216))
  else
    (i32ofU32 raw : ℚ) / step_count * (clock / 16777216)

/-- `get_velocity`: read VACTUAL and decode the signed-magnitude word. -/
def get_velocity (s : St) : Except Err ℚ × St :=
  match read_register Registers.VACTUAL s with
  | (Except.error e, s1) => (Except.error e, s1)
  | (Except.ok p, s1) => (Except.ok (decodeVelocity s1.clock s1.step_count p.data), s1)

/-- A driver state as produced by `Tmc5160::new` (clock 12 MHz,
256 microsteps, no enable pin), with a prescribed bus script and
fault-free pins. -/
def initState (bus : List (Option (List Nat))) : St :=
  { busScript := bus
    csScript := []
    enScript := []
    csLevel := true
    enLevel := true
    txTrace := []
    v_max := 0
    status := 0
    debug := [0, 0, 0, 0, 0]
    clock := 12000000
    step_count := 256
    en_present := false
    en_inverted := false }

/-- The speed conversion as the spec words it:
`round(speed_hz / (clock_hz / 2^24) * microsteps)`. -/
def speed_to_ticks_spec (clock microsteps speed_hz : ℚ) : Int :=
  round (speed_hz / (clock / 2 ^ 24) * microsteps)

/-- The acceleration conversion as the spec words it:
`round(accel / clock_hz^2 * (512*256) * 2^24 * microsteps)`. -/
def accel_to_ticks_spec (clock microsteps accel : ℚ) : Int :=
  round (accel / clock ^ 2 * (512 * 256) * 2 ^ 24 * microsteps)

/-- The position conversion as the spec words it:
`round(target_f * microsteps)`. -/
def position_to_steps_spec (microsteps target_f : ℚ) : Int :=
  round (target_f * microsteps)

/-- The velocity decoding written the way the spec (and claim C4) words
it, for comparison with `decodeVelocity`: the negation is applied to the
offset magnitude before the scaling, and the scale reads `clock / 2^24`. -/
theorem decodeVelocity_claim_shape (c m : ℚ) (raw : Nat) :
    decodeVelocity c m raw =
      if raw &&& 0x800000 = 0x800000 then
        -((8388607 : ℚ) - ((raw &&& 0x7FFFFF : Nat) : ℚ)) / m * (c / 2 ^ 24)
      else (i32ofU32 raw : ℚ) / m * (c / 2 ^ 24) := by
  unfold decodeVelocity
  split
  · push_cast
    norm_num
    ring
  · norm_num

/-- C1: a logical register read issues exactly two 5-byte datagram
exchanges for the same address, discards the first response, and returns
to the caller the packet built from the second response only (the result
does not depend on the first received frame `rx1`). -/
theorem read_register_two_exchanges_second_result
    (s : St) (a : Nat) (rx1 rx2 : List Nat) (rest : List (Option (List Nat)))
    (ha : a < 128)
    (hb : s.busScript = some rx1 :: some rx2 :: rest)
    (hc : s.csScript = []) :
    (read_register a s).2.txTrace = s.txTrace ++ [readFrame a, readFrame a] ∧
    (read_register a s).1 = Except.ok
      { status := byteAt rx2 0
        data := fromBeBytes (byteAt rx2 1) (byteAt rx2 2) (byteAt rx2 3) (byteAt rx2 4)
        debug := [byteAt rx2 0, byteAt rx2 1, byteAt rx2 2, byteAt rx2 3,
          byteAt rx2 4] } := by
  simp [read_register, read_io, transfer, csSet, hb, hc]

/-- Witness for C1 at a concrete input: reading address 0x21 with scripted
responses; the returned packet comes from the second frame only. -/
theorem read_register_two_exchanges_second_result_witness :
    (33 : Nat) < 128 ∧
    (initState [some [1, 2, 3, 4, 5], some [6, 0, 0, 0, 100]]).busScript =
      some [1, 2, 3, 4, 5] :: some [6, 0, 0, 0, 100] :: [] ∧
    (initState [some [1, 2, 3, 4, 5], some [6, 0, 0, 0, 100]]).csScript = [] ∧
    ((read_register 33 (initState [some [1, 2, 3, 4, 5], some [6, 0, 0, 0, 100]])).2.txTrace
        = (initState [some [1, 2, 3, 4, 5], some [6, 0, 0, 0, 100]]).txTrace ++
          [readFrame 33, readFrame 33] ∧
      (read_register 33 (initState [some [1, 2, 3, 4, 5], some [6, 0, 0, 0, 100]])).1
        = Except.ok
          { status := byteAt [6, 0, 0, 0, 100] 0
            data := fromBeBytes (byteAt [6, 0, 0, 0, 100] 1) (byteAt [6, 0, 0, 0, 100] 2)
              (byteAt [6, 0, 0, 0, 100] 3) (byteAt [6, 0, 0, 0, 100] 4)
            debug := [byteAt [6, 0, 0, 0, 100] 0, byteAt [6, 0, 0, 0, 100] 1,
              byteAt [6, 0, 0, 0, 100] 2, byteAt [6, 0, 0, 0, 100] 3,
              byteAt [6, 0, 0, 0, 100] 4] }) :=
  ⟨by decide, rfl, rfl,
    read_register_two_exchanges_second_result
      (initState [some [1, 2, 3, 4, 5], some [6, 0, 0, 0, 100]])
      33 [1, 2, 3, 4, 5] [6, 0, 0, 0, 100] [] (by decide) rfl rfl⟩

/-- C2 counterexample: on a scripted bus failure, `read_io` surfaces the
SPI error but chip-select is NOT deasserted: the pin is left low
(asserted), contradicting the claim that it is set high before the
operation returns.  The early return of the `?` operator skips the
`cs.set_high()` below it. -/
theorem read_io_bus_failure_leaves_cs_asserted_cex :
    (read_io Registers.XACTUAL (initState [none])).1 = Except.error Err.Spi ∧
    ¬ ((read_io Registers.XACTUAL (initState [none])).2.csLevel = true) := by
  constructor
  · rfl
  · decide

/-- C2 (amended): when the bus transfer of an exchange (read or write)
fails, the error is surfaced to the caller, but chip-select remains
asserted (low): the deassertion step is skipped on the failure path. -/
theorem bus_failure_surfaced_cs_left_asserted
    (s : St) (a : Nat) (val : List Nat) (rest : List (Option (List Nat)))
    (hb : s.busScript = none :: rest) (hc : s.csScript = []) :
    ((read_io a s).1 = Except.error Err.Spi ∧
      (read_io a s).2.csLevel = false) ∧
    ((write_register a val s).1 = Except.error Err.Spi ∧
      (write_register a val s).2.csLevel = false) := by
  simp [read_io, write_register, transfer, csSet, hb, hc]

/-- Witness for the amended C2 at a concrete input. -/
theorem bus_failure_surfaced_cs_left_asserted_witness :
    (initState [none]).busScript = none :: [] ∧
    (initState [none]).csScript = [] ∧
    (((read_io 39 (initState [none])).1 = Except.error Err.Spi ∧
        (read_io 39 (initState [none])).2.csLevel = false) ∧
      ((write_register 39 [0, 0, 0, 0] (initState [none])).1 = Except.error Err.Spi ∧
        (write_register 39 [0, 0, 0, 0] (initState [none])).2.csLevel = false)) :=
  ⟨rfl, rfl,
    bus_failure_surfaced_cs_left_asserted (initState [none]) 39 [0, 0, 0, 0] [] rfl rfl⟩

/-- C3: a register write is a single exchange whose transmitted datagram
is the address with the top bit set followed by the four big-endian data
bytes, and the returned packet has the first received byte as status and
the remaining four received bytes reinterpreted big-endian as data. -/
theorem write_register_single_exchange_frame
    (s : St) (a d : Nat) (rx : List Nat) (rest : List (Option (List Nat)))
    (ha : a < 128) (hd : d < 2 ^ 32)
    (hb : s.busScript = some rx :: rest) (hc : s.csScript = []) :
    (write_register a (toBeBytes d) s).2.txTrace =
      s.txTrace ++ [[a ||| 0x80] ++ toBeBytes d] ∧
    (write_register a (toBeBytes d) s).1 = Except.ok
      { status := byteAt rx 0
        data := fromBeBytes (byteAt rx 1) (byteAt rx 2) (byteAt rx 3) (byteAt rx 4)
        debug := [a ||| 0x80] ++ toBeBytes d } := by
  have hfr : writeFrame a (toBeBytes d) = [a ||| 0x80] ++ toBeBytes d := by
    simp [writeFrame, toBeBytes, byteAt, Nat.mod_mod]
  simp [write_register, transfer, csSet, hb, hc, hfr]

/-- Witness for C3 at a concrete input: writing 0x01020304 to address
0x27 transmits frame [0xA7, 1, 2, 3, 4]. -/
theorem write_register_single_exchange_frame_witness :
    (39 : Nat) < 128 ∧ (16909060 : Nat) < 2 ^ 32 ∧
    (initState [some [7, 8, 9, 10, 11]]).busScript = some [7, 8, 9, 10, 11] :: [] ∧
    (initState [some [7, 8, 9, 10, 11]]).csScript = [] ∧
    ((write_register 39 (toBeBytes 16909060) (initState [some [7, 8, 9, 10, 11]])).2.txTrace =
        (initState [some [7, 8, 9, 10, 11]]).txTrace ++ [[39 ||| 0x80] ++ toBeBytes 16909060] ∧
      (write_register 39 (toBeBytes 16909060) (initState [some [7, 8, 9, 10, 11]])).1 =
        Except.ok
          { status := byteAt [7, 8, 9, 10, 11] 0
            data := fromBeBytes (byteAt [7, 8, 9, 10, 11] 1) (byteAt [7, 8, 9, 10, 11] 2)
              (byteAt [7, 8, 9, 10, 11] 3) (byteAt [7, 8, 9, 10, 11] 4)
            debug := [39 ||| 0x80] ++ toBeBytes 16909060 }) :=
  ⟨by decide, by decide, rfl, rfl,
    write_register_single_exchange_frame (initState [some [7, 8, 9, 10, 11]])
      39 16909060 [7, 8, 9, 10, 11] [] (by decide) (by decide) rfl rfl⟩

/-- C4: `get_velocity` decodes the raw velocity register word by the
asymmetric signed-magnitude rule of the claim — if bit 23 is set the
result is `-(8388607 - (raw & 0x7FFFFF)) / microsteps * (clock / 2^24)`,
otherwise it is `(raw as i32) / microsteps * (clock / 2^24)` — and in
particular the raw word 0x64 decodes to +100 ticks scaled to Hz. -/
theorem get_velocity_signed_magnitude_decode :
    (∀ (s : St) (rx1 : List Nat) (st0 b0 b1 b2 b3 : Nat)
      (rest : List (Option (List Nat))) (w : Nat),
      s.busScript = some rx1 :: some [st0, b0, b1, b2, b3] :: rest →
      s.csScript = [] →
      b0 < 256 → b1 < 256 → b2 < 256 → b3 < 256 →
      w = fromBeBytes b0 b1 b2 b3 →
      (get_velocity s).1 = Except.ok
        (if w &&& 0x800000 = 0x800000 then
          -((8388607 : ℚ) - ((w &&& 0x7FFFFF : Nat) : ℚ)) / s.step_count * (s.clock / 2 ^ 24)
        else (i32ofU32 w : ℚ) / s.step_count * (s.clock / 2 ^ 24))) ∧
    decodeVelocity 12000000 256 0x64 = (100 : ℚ) / 256 * (12000000 / 2 ^ 24) := by
  constructor
  · intro s rx1 st0 b0 b1 b2 b3 rest w hb hc h0 h1 h2 h3 hw
    subst hw
    simp [get_velocity, read_register, read_io, transfer, csSet, hb, hc, byteAt,
      Nat.mod_eq_of_lt, h0, h1, h2, h3, decodeVelocity_claim_shape]
  · have h : ¬ ((100 : Nat) &&& 0x800000 = 0x800000) := by decide
    rw [decodeVelocity, if_neg h]
    norm_num [i32ofU32]

/-- Witness for C4 at a concrete input: the VACTUAL read returns raw word
0x64 = 100 (bit 23 clear), and the decoded velocity follows the positive
branch of the formula. -/
theorem get_velocity_signed_magnitude_decode_witness :
    ((initState [some [0, 0, 0, 0, 0], some [2, 0, 0, 0, 100]]).busScript =
      some [0, 0, 0, 0, 0] :: some [2, 0, 0, 0, 100] :: [] ∧
    (initState [some [0, 0, 0, 0, 0], some [2, 0, 0, 0, 100]]).csScript = [] ∧
    (0 : Nat) < 256 ∧ (100 : Nat) < 256 ∧
    (fromBeBytes 0 0 0 100 : Nat) = fromBeBytes 0 0 0 100 ∧
    (get_velocity (initState [some [0, 0, 0, 0, 0], some [2, 0, 0, 0, 100]])).1 =
      Except.ok
        (if fromBeBytes 0 0 0 100 &&& 0x800000 = 0x800000 then
          -((8388607 : ℚ) -
              ((fromBeBytes 0 0 0 100 &&& 0x7FFFFF : Nat) : ℚ)) /
            (initState [some [0, 0, 0, 0, 0], some [2, 0, 0, 0, 100]]).step_count *
            ((initState [some [0, 0, 0, 0, 0], some [2, 0, 0, 0, 100]]).clock / 2 ^ 24)
        else (i32ofU32 (fromBeBytes 0 0 0 100) : ℚ) /
            (initState [some [0, 0, 0, 0, 0], some [2, 0, 0, 0, 100]]).step_count *
            ((initState [some [0, 0, 0, 0, 0], some [2, 0, 0, 0, 100]]).clock / 2 ^ 24))) ∧
    decodeVelocity 12000000 256 0x64 = (100 : ℚ) / 256 * (12000000 / 2 ^ 24) :=
  ⟨⟨rfl, rfl, by decide, by decide, rfl,
    get_velocity_signed_magnitude_decode.1
      (initState [some [0, 0, 0, 0, 0], some [2, 0, 0, 0, 100]])
      [0, 0, 0, 0, 0] 2 0 0 0 100 [] (fromBeBytes 0 0 0 100)
      rfl rfl (by decide) (by decide) (by decide) (by decide) rfl⟩,
    get_velocity_signed_magnitude_decode.2⟩

/-- C5 counterexample: with the default 12 MHz clock and 256 microsteps,
converting 1.0 Hz yields 357 in the code (truncation toward zero), while
the rounding formula of the claim yields 358. -/
theorem set_velocity_trunc_vs_round_cex :
    speed_from_hz (initState []) 1 = 357 ∧
    speed_to_ticks_spec 12000000 256 1 = 358 ∧
    (speed_from_hz (initState []) 1 : Int) ≠ speed_to_ticks_spec 12000000 256 1 := by
  have h1 : speed_from_hz (initState []) 1 = 357 := by
    norm_num [speed_from_hz, initState, u32cast, truncQ]
    rfl
  have h2 : speed_to_ticks_spec 12000000 256 1 = 358 := by
    norm_num [speed_to_ticks_spec, round_eq]
  exact ⟨h1, h2, by rw [h1, h2]; decide⟩

/-- C5 (amended): the speed-to-ticks conversion used when setting the
velocity equals the TRUNCATION toward zero (the saturating `as u32`
cast), not the rounding, of `speed_hz / (clock_hz / 2^24) * microsteps`;
that value is what `set_velocity` transmits to the VMAX register. -/
theorem set_velocity_writes_truncated_ticks
    (s : St) (v : ℚ) (rx : List Nat) (rest : List (Option (List Nat)))
    (hb : s.busScript = some rx :: rest) (hc : s.csScript = []) :
    (set_velocity v s).2.txTrace =
      s.txTrace ++ [writeFrame Registers.VMAX
        (toBeBytes (u32cast (v / (s.clock / 2 ^ 24) * s.step_count)))] := by
  have hformula : ∀ s' : St, speed_from_hz s' v
      = u32cast (v / (s'.clock / 2 ^ 24) * s'.step_count) := by
    intro s'
    simp only [speed_from_hz]
    norm_num
  simp [set_velocity, write_register, transfer, csSet, hb, hc, hformula]

/-- Witness for the amended C5 at a concrete input. -/
theorem set_velocity_writes_truncated_ticks_witness :
    (initState [some [0, 0, 0, 0, 0]]).busScript = some [0, 0, 0, 0, 0] :: [] ∧
    (initState [some [0, 0, 0, 0, 0]]).csScript = [] ∧
    (set_velocity 1 (initState [some [0, 0, 0, 0, 0]])).2.txTrace =
      (initState [some [0, 0, 0, 0, 0]]).txTrace ++ [writeFrame Registers.VMAX
        (toBeBytes (u32cast (1 / ((initState [some [0, 0, 0, 0, 0]]).clock / 2 ^ 24) *
          (initState [some [0, 0, 0, 0, 0]]).step_count)))] :=
  ⟨rfl, rfl,
    set_velocity_writes_truncated_ticks (initState [some [0, 0, 0, 0, 0]]) 1
      [0, 0, 0, 0, 0] [] rfl rfl⟩

/-- C6 counterexample: with the default 12 MHz clock and 256 microsteps,
converting 1.0 Hz/s yields 3 in the code (truncation toward zero), while
the rounding formula of the claim yields 4. -/
theorem set_acceleration_trunc_vs_round_cex :
    accel_from_hz (initState []) 1 = 3 ∧
    accel_to_ticks_spec 12000000 256 1 = 4 ∧
    (accel_from_hz (initState []) 1 : Int) ≠ accel_to_ticks_spec 12000000 256 1 := by
  have h1 : accel_from_hz (initState []) 1 = 3 := by
    norm_num [accel_from_hz, initState, u32cast, truncQ]
    rfl
  have h2 : accel_to_ticks_spec 12000000 256 1 = 4 := by
    norm_num [accel_to_ticks_spec, round_eq]
  exact ⟨h1, h2, by rw [h1, h2]; decide⟩

/-- C6 (amended): the acceleration-to-ticks conversion used when setting
the acceleration equals the TRUNCATION toward zero (the saturating
`as u32` cast), not the rounding, of
`accel / clock_hz^2 * (512*256) * 2^24 * microsteps`; that value is what
`set_acceleration` transmits to each of the four acceleration registers. -/
theorem set_acceleration_writes_truncated_ticks
    (s : St) (acc : ℚ) (r1 r2 r3 r4 : List Nat) (rest : List (Option (List Nat)))
    (hb : s.busScript = some r1 :: some r2 :: some r3 :: some r4 :: rest)
    (hc : s.csScript = []) :
    (set_acceleration acc s).2.txTrace = s.txTrace ++
      [writeFrame Registers.AMAX
          (toBeBytes (u32cast (acc / s.clock ^ 2 * (512 * 256) * 2 ^ 24 * s.step_count))),
        writeFrame Registers.DMAX
          (toBeBytes (u32cast (acc / s.clock ^ 2 * (512 * 256) * 2 ^ 24 * s.step_count))),
        writeFrame Registers.A1
          (toBeBytes (u32cast (acc / s.clock ^ 2 * (512 * 256) * 2 ^ 24 * s.step_count))),
        writeFrame Registers.D1
          (toBeBytes (u32cast (acc / s.clock ^ 2 * (512 * 256) * 2 ^ 24 * s.step_count)))] := by
  have harg : acc / (s.clock * s.clock) * (512 * 256) * 16777216 * s.step_count
      = acc / s.clock ^ 2 * (512 * 256) * 2 ^ 24 * s.step_count := by
    rw [sq]
    norm_num
  have hformula : accel_from_hz s acc
      = u32cast (acc / s.clock ^ 2 * (512 * 256) * 2 ^ 24 * s.step_count) := by
    simp only [accel_from_hz]
    rw [harg]
  simp [set_acceleration, write_register, transfer, csSet, hb, hc, hformula]

/-- Witness for the amended C6 at a concrete input. -/
theorem set_acceleration_writes_truncated_ticks_witness :
    (initState [some [0, 0, 0, 0, 0], some [0, 0, 0, 0, 0], some [0, 0, 0, 0, 0],
        some [0, 0, 0, 0, 0]]).busScript =
      some [0, 0, 0, 0, 0] :: some [0, 0, 0, 0, 0] :: some [0, 0, 0, 0, 0] ::
        some [0, 0, 0, 0, 0] :: [] ∧
    (initState [some [0, 0, 0, 0, 0], some [0, 0, 0, 0, 0], some [0, 0, 0, 0, 0],
        some [0, 0, 0, 0, 0]]).csScript = [] ∧
    (set_acceleration 1 (initState [some [0, 0, 0, 0, 0], some [0, 0, 0, 0, 0],
        some [0, 0, 0, 0, 0], some [0, 0, 0, 0, 0]])).2.txTrace =
      (initState [some [0, 0, 0, 0, 0], some [0, 0, 0, 0, 0], some [0, 0, 0, 0, 0],
        some [0, 0, 0, 0, 0]]).txTrace ++
      [writeFrame Registers.AMAX (toBeBytes (u32cast (1 /
          (initState [some [0, 0, 0, 0, 0], some [0, 0, 0, 0, 0], some [0, 0, 0, 0, 0],
            some [0, 0, 0, 0, 0]]).clock ^ 2 * (512 * 256) * 2 ^ 24 *
          (initState [some [0, 0, 0, 0, 0], some [0, 0, 0, 0, 0], some [0, 0, 0, 0, 0],
            some [0, 0, 0, 0, 0]]).step_count))),
        writeFrame Registers.DMAX (toBeBytes (u32cast (1 /
          (initState [some [0, 0, 0, 0, 0], some [0, 0, 0, 0, 0], some [0, 0, 0, 0, 0],
            some [0, 0, 0, 0, 0]]).clock ^ 2 * (512 * 256) * 2 ^ 24 *
          (initState [some [0, 0, 0, 0, 0], some [0, 0, 0, 0, 0], some [0, 0, 0, 0, 0],
            some [0, 0, 0, 0, 0]]).step_count))),
        writeFrame Registers.A1 (toBeBytes (u32cast (1 /
          (initState [some [0, 0, 0, 0, 0], some [0, 0, 0, 0, 0], some [0, 0, 0, 0, 0],
            some [0, 0, 0, 0, 0]]).clock ^ 2 * (512 * 256) * 2 ^ 24 *
          (initState [some [0, 0, 0, 0, 0], some [0, 0, 0, 0, 0], some [0, 0, 0, 0, 0],
            some [0, 0, 0, 0, 0]]).step_count))),
        writeFrame Registers.D1 (toBeBytes (u32cast (1 /
          (initState [some [0, 0, 0, 0, 0], some [0, 0, 0, 0, 0], some [0, 0, 0, 0, 0],
            some [0, 0, 0, 0, 0]]).clock ^ 2 * (512 * 256) * 2 ^ 24 *
          (initState [some [0, 0, 0, 0, 0], some [0, 0, 0, 0, 0], some [0, 0, 0, 0, 0],
            some [0, 0, 0, 0, 0]]).step_count)))] :=
  ⟨rfl, rfl,
    set_acceleration_writes_truncated_ticks
      (initState [some [0, 0, 0, 0, 0], some [0, 0, 0, 0, 0], some [0, 0, 0, 0, 0],
        some [0, 0, 0, 0, 0]]) 1
      [0, 0, 0, 0, 0] [0, 0, 0, 0, 0] [0, 0, 0, 0, 0] [0, 0, 0, 0, 0] [] rfl rfl⟩

/-- C7: `set_acceleration` issues writes to AMAX, DMAX, A1, D1 in exactly
that order, each carrying the identical converted value; and when any of
the four intermediate writes fails — the first (AMAX), the second (DMAX),
the third (A1) or the fourth (D1) — the error propagates to the caller
and the remaining writes are never attempted: the trace ends at the
failing frame. -/
theorem set_acceleration_register_order_and_abort :
    (∀ (s : St) (acc : ℚ) (r1 r2 r3 r4 : List Nat) (rest : List (Option (List Nat))),
      s.busScript = some r1 :: some r2 :: some r3 :: some r4 :: rest →
      s.csScript = [] →
      (set_acceleration acc s).2.txTrace = s.txTrace ++
        [writeFrame Registers.AMAX (toBeBytes (accel_from_hz s acc)),
          writeFrame Registers.DMAX (toBeBytes (accel_from_hz s acc)),
          writeFrame Registers.A1 (toBeBytes (accel_from_hz s acc)),
          writeFrame Registers.D1 (toBeBytes (accel_from_hz s acc))]) ∧
    (∀ (s : St) (acc : ℚ) (rest : List (Option (List Nat))),
      s.busScript = none :: rest →
      s.csScript = [] →
      (set_acceleration acc s).1 = Except.error Err.Spi ∧
      (set_acceleration acc s).2.txTrace = s.txTrace ++
        [writeFrame Registers.AMAX (toBeBytes (accel_from_hz s acc))]) ∧
    (∀ (s : St) (acc : ℚ) (r1 : List Nat) (rest : List (Option (List Nat))),
      s.busScript = some r1 :: none :: rest →
      s.csScript = [] →
      (set_acceleration acc s).1 = Except.error Err.Spi ∧
      (set_acceleration acc s).2.txTrace = s.txTrace ++
        [writeFrame Registers.AMAX (toBeBytes (accel_from_hz s acc)),
          writeFrame Registers.DMAX (toBeBytes (accel_from_hz s acc))]) ∧
    (∀ (s : St) (acc : ℚ) (r1 r2 : List Nat) (rest : List (Option (List Nat))),
      s.busScript = some r1 :: some r2 :: none :: rest →
      s.csScript = [] →
      (set_acceleration acc s).1 = Except.error Err.Spi ∧
      (set_acceleration acc s).2.txTrace = s.txTrace ++
        [writeFrame Registers.AMAX (toBeBytes (accel_from_hz s acc)),
          writeFrame Registers.DMAX (toBeBytes (accel_from_hz s acc)),
          writeFrame Registers.A1 (toBeBytes (accel_from_hz s acc))]) ∧
    (∀ (s : St) (acc : ℚ) (r1 r2 r3 : List Nat) (rest : List (Option (List Nat))),
      s.busScript = some r1 :: some r2 :: some r3 :: none :: rest →
      s.csScript = [] →
      (set_acceleration acc s).1 = Except.error Err.Spi ∧
      (set_acceleration acc s).2.txTrace = s.txTrace ++
        [writeFrame Registers.AMAX (toBeBytes (accel_from_hz s acc)),
          writeFrame Registers.DMAX (toBeBytes (accel_from_hz s acc)),
          writeFrame Registers.A1 (toBeBytes (accel_from_hz s acc)),
          writeFrame Registers.D1 (toBeBytes (accel_from_hz s acc))]) := by
  refine ⟨?_, ?_, ?_, ?_, ?_⟩
  · intro s acc r1 r2 r3 r4 rest hb hc
    simp [set_acceleration, write_register, transfer, csSet, hb, hc]
  · intro s acc rest hb hc
    simp [set_acceleration, write_register, transfer, csSet, hb, hc]
  · intro s acc r1 rest hb hc
    simp [set_acceleration, write_register, transfer, csSet, hb, hc]
  · intro s acc r1 r2 rest hb hc
    simp [set_acceleration, write_register, transfer, csSet, hb, hc]
  · intro s acc r1 r2 r3 rest hb hc
    simp [set_acceleration, write_register, transfer, csSet, hb, hc]

/-- Witness for C7 at concrete inputs: one all-success run and four runs
whose first, second, third and fourth transfer fails, respectively. -/
theorem set_acceleration_register_order_and_abort_witness :
    ((initState [some [0, 0, 0, 0, 0], some [0, 0, 0, 0, 0], some [0, 0, 0, 0, 0],
        some [0, 0, 0, 0, 0]]).busScript =
      some [0, 0, 0, 0, 0] :: some [0, 0, 0, 0, 0] :: some [0, 0, 0, 0, 0] ::
        some [0, 0, 0, 0, 0] :: [] ∧
      (set_acceleration 2 (initState [some [0, 0, 0, 0, 0], some [0, 0, 0, 0, 0],
          some [0, 0, 0, 0, 0], some [0, 0, 0, 0, 0]])).2.txTrace =
        (initState [some [0, 0, 0, 0, 0], some [0, 0, 0, 0, 0], some [0, 0, 0, 0, 0],
          some [0, 0, 0, 0, 0]]).txTrace ++
        [writeFrame Registers.AMAX (toBeBytes (accel_from_hz
            (initState [some [0, 0, 0, 0, 0], some [0, 0, 0, 0, 0], some [0, 0, 0, 0, 0],
              some [0, 0, 0, 0, 0]]) 2)),
          writeFrame Registers.DMAX (toBeBytes (accel_from_hz
            (initState [some [0, 0, 0, 0, 0], some [0, 0, 0, 0, 0], some [0, 0, 0, 0, 0],
              some [0, 0, 0, 0, 0]]) 2)),
          writeFrame Registers.A1 (toBeBytes (accel_from_hz
            (initState [some [0, 0, 0, 0, 0], some [0, 0, 0, 0, 0], some [0, 0, 0, 0, 0],
              some [0, 0, 0, 0, 0]]) 2)),
          writeFrame Registers.D1 (toBeBytes (accel_from_hz
            (initState [some [0, 0, 0, 0, 0], some [0, 0, 0, 0, 0], some [0, 0, 0, 0, 0],
              some [0, 0, 0, 0, 0]]) 2))]) ∧
    ((initState [none]).busScript = none :: [] ∧
      (set_acceleration 2 (initState [none])).1 = Except.error Err.Spi ∧
      (set_acceleration 2 (initState [none])).2.txTrace =
        (initState [none]).txTrace ++
        [writeFrame Registers.AMAX
            (toBeBytes (accel_from_hz (initState [none]) 2))]) ∧
    ((initState [some [0, 0, 0, 0, 0], none]).busScript =
        some [0, 0, 0, 0, 0] :: none :: [] ∧
      (set_acceleration 2 (initState [some [0, 0, 0, 0, 0], none])).1 =
        Except.error Err.Spi ∧
      (set_acceleration 2 (initState [some [0, 0, 0, 0, 0], none])).2.txTrace =
        (initState [some [0, 0, 0, 0, 0], none]).txTrace ++
        [writeFrame Registers.AMAX
            (toBeBytes (accel_from_hz (initState [some [0, 0, 0, 0, 0], none]) 2)),
          writeFrame Registers.DMAX
            (toBeBytes (accel_from_hz (initState [some [0, 0, 0, 0, 0], none]) 2))]) ∧
    ((initState [some [0, 0, 0, 0, 0], some [0, 0, 0, 0, 0], none]).busScript =
        some [0, 0, 0, 0, 0] :: some [0, 0, 0, 0, 0] :: none :: [] ∧
      (set_acceleration 2
        (initState [some [0, 0, 0, 0, 0], some [0, 0, 0, 0, 0], none])).1 =
        Except.error Err.Spi ∧
      (set_acceleration 2
        (initState [some [0, 0, 0, 0, 0], some [0, 0, 0, 0, 0], none])).2.txTrace =
        (initState [some [0, 0, 0, 0, 0], some [0, 0, 0, 0, 0], none]).txTrace ++
        [writeFrame Registers.AMAX (toBeBytes (accel_from_hz
            (initState [some [0, 0, 0, 0, 0], some [0, 0, 0, 0, 0], none]) 2)),
          writeFrame Registers.DMAX (toBeBytes (accel_from_hz
            (initState [some [0, 0, 0, 0, 0], some [0, 0, 0, 0, 0], none]) 2)),
          writeFrame Registers.A1 (toBeBytes (accel_from_hz
            (initState [some [0, 0, 0, 0, 0], some [0, 0, 0, 0, 0], none]) 2))]) ∧
    ((initState [some [0, 0, 0, 0, 0], some [0, 0, 0, 0, 0], some [0, 0, 0, 0, 0],
        none]).busScript =
        some [0, 0, 0, 0, 0] :: some [0, 0, 0, 0, 0] :: some [0, 0, 0, 0, 0] ::
          none :: [] ∧
      (set_acceleration 2 (initState [some [0, 0, 0, 0, 0], some [0, 0, 0, 0, 0],
          some [0, 0, 0, 0, 0], none])).1 = Except.error Err.Spi ∧
      (set_acceleration 2 (initState [some [0, 0, 0, 0, 0], some [0, 0, 0, 0, 0],
          some [0, 0, 0, 0, 0], none])).2.txTrace =
        (initState [some [0, 0, 0, 0, 0], some [0, 0, 0, 0, 0], some [0, 0, 0, 0, 0],
          none]).txTrace ++
        [writeFrame Registers.AMAX (toBeBytes (accel_from_hz
            (initState [some [0, 0, 0, 0, 0], some [0, 0, 0, 0, 0], some [0, 0, 0, 0, 0],
              none]) 2)),
          writeFrame Registers.DMAX (toBeBytes (accel_from_hz
            (initState [some [0, 0, 0, 0, 0], some [0, 0, 0, 0, 0], some [0, 0, 0, 0, 0],
              none]) 2)),
          writeFrame Registers.A1 (toBeBytes (accel_from_hz
            (initState [some [0, 0, 0, 0, 0], some [0, 0, 0, 0, 0], some [0, 0, 0, 0, 0],
              none]) 2)),
          writeFrame Registers.D1 (toBeBytes (accel_from_hz
            (initState [some [0, 0, 0, 0, 0], some [0, 0, 0, 0, 0], some [0, 0, 0, 0, 0],
              none]) 2))]) :=
  ⟨⟨rfl,
      set_acceleration_register_order_and_abort.1
        (initState [some [0, 0, 0, 0, 0], some [0, 0, 0, 0, 0], some [0, 0, 0, 0, 0],
          some [0, 0, 0, 0, 0]]) 2
        [0, 0, 0, 0, 0] [0, 0, 0, 0, 0] [0, 0, 0, 0, 0] [0, 0, 0, 0, 0] [] rfl rfl⟩,
    ⟨rfl,
      (set_acceleration_register_order_and_abort.2.1
        (initState [none]) 2 [] rfl rfl).1,
      (set_acceleration_register_order_and_abort.2.1
        (initState [none]) 2 [] rfl rfl).2⟩,
    ⟨rfl,
      (set_acceleration_register_order_and_abort.2.2.1
        (initState [some [0, 0, 0, 0, 0], none]) 2 [0, 0, 0, 0, 0] [] rfl rfl).1,
      (set_acceleration_register_order_and_abort.2.2.1
        (initState [some [0, 0, 0, 0, 0], none]) 2 [0, 0, 0, 0, 0] [] rfl rfl).2⟩,
    ⟨rfl,
      (set_acceleration_register_order_and_abort.2.2.2.1
        (initState [some [0, 0, 0, 0, 0], some [0, 0, 0, 0, 0], none]) 2
        [0, 0, 0, 0, 0] [0, 0, 0, 0, 0] [] rfl rfl).1,
      (set_acceleration_register_order_and_abort.2.2.2.1
        (initState [some [0, 0, 0, 0, 0], some [0, 0, 0, 0, 0], none]) 2
        [0, 0, 0, 0, 0] [0, 0, 0, 0, 0] [] rfl rfl).2⟩,
    ⟨rfl,
      (set_acceleration_register_order_and_abort.2.2.2.2
        (initState [some [0, 0, 0, 0, 0], some [0, 0, 0, 0, 0], some [0, 0, 0, 0, 0],
          none]) 2 [0, 0, 0, 0, 0] [0, 0, 0, 0, 0] [0, 0, 0, 0, 0] [] rfl rfl).1,
      (set_acceleration_register_order_and_abort.2.2.2.2
        (initState [some [0, 0, 0, 0, 0], some [0, 0, 0, 0, 0], some [0, 0, 0, 0, 0],
          none]) 2 [0, 0, 0, 0, 0] [0, 0, 0, 0, 0] [0, 0, 0, 0, 0] [] rfl rfl).2⟩⟩

/-- A driver state whose chip-select pin fails on the next two set
operations but whose bus works; used to probe pin-error handling. -/
def csFailState : St :=
  { initState [some [1, 2, 3, 4, 5]] with csScript := [true, true] }

/-- A driver state with an attached enable pin that fails on its next set
operation. -/
def enFailState : St :=
  { initState [some [1, 2, 3, 4, 5]] with en_present := true, enScript := [true] }

/-- C8 counterexample: the chip-select pin fails to change state on both
set operations of a write exchange, yet the operation completes with
`Ok` and no `PinError` is surfaced — the source discards chip-select pin
results with `.ok()`. -/
theorem cs_pin_failure_not_surfaced_cex :
    (write_register Registers.VMAX [0, 0, 0, 0] csFailState).1 =
      Except.ok
        { status := 1
          data := fromBeBytes 2 3 4 5
          debug := writeFrame Registers.VMAX [0, 0, 0, 0] } ∧
    (write_register Registers.VMAX [0, 0, 0, 0] csFailState).1 ≠
      Except.error Err.PinError := by
  refine ⟨rfl, ?_⟩
  simp [csFailState, initState, write_register, transfer, csSet]

/-- C8 (amended): only enable-pin failures surface `PinError` — `enable`
and `disable`, whatever the configured polarity (`en_inverted` arbitrary),
abort with `PinError` when the enable pin fails to change state, and so
does `move_to`, which calls `enable` first and then issues no exchange;
chip-select pin failures during an exchange (read or write) are silently
ignored and the exchange proceeds normally. -/
theorem pin_error_enable_only_cs_ignored :
    (∀ (s : St) (restE : List Bool),
      s.en_present = true → s.enScript = true :: restE →
      (enable s).1 = Except.error Err.PinError ∧ (enable s).2.txTrace = s.txTrace) ∧
    (∀ (s : St) (restE : List Bool),
      s.en_present = true → s.enScript = true :: restE →
      (disable s).1 = Except.error Err.PinError ∧ (disable s).2.txTrace = s.txTrace) ∧
    (∀ (s : St) (t : ℚ) (restE : List Bool),
      s.en_present = true → s.enScript = true :: restE →
      (move_to t s).1 = Except.error Err.PinError ∧ (move_to t s).2.txTrace = s.txTrace) ∧
    (∀ (s : St) (a : Nat) (rx : List Nat) (rest : List (Option (List Nat))),
      s.csScript = [true, true] → s.busScript = some rx :: rest →
      (read_io a s).1 = Except.ok
        { status := byteAt rx 0
          data := fromBeBytes (byteAt rx 1) (byteAt rx 2) (byteAt rx 3) (byteAt rx 4)
          debug := [byteAt rx 0, byteAt rx 1, byteAt rx 2, byteAt rx 3,
            byteAt rx 4] } ∧
      (read_io a s).2.txTrace = s.txTrace ++ [readFrame a]) ∧
    (∀ (s : St) (a : Nat) (val rx : List Nat) (rest : List (Option (List Nat))),
      s.csScript = [true, true] → s.busScript = some rx :: rest →
      (write_register a val s).1 = Except.ok
        { status := byteAt rx 0
          data := fromBeBytes (byteAt rx 1) (byteAt rx 2) (byteAt rx 3) (byteAt rx 4)
          debug := writeFrame a val } ∧
      (write_register a val s).2.txTrace = s.txTrace ++ [writeFrame a val]) := by
  refine ⟨?_, ?_, ?_, ?_, ?_⟩
  · intro s restE hp he
    simp [enable, enSet, hp, he]
  · intro s restE hp he
    simp [disable, enSet, hp, he]
  · intro s t restE hp he
    simp [move_to, enable, enSet, hp, he]
  · intro s a rx rest hc hb
    simp [read_io, transfer, csSet, hc, hb]
  · intro s a val rx rest hc hb
    simp [write_register, transfer, csSet, hc, hb]

/-- Witness for the amended C8 at concrete inputs. -/
theorem pin_error_enable_only_cs_ignored_witness :
    (enFailState.en_present = true ∧
      enFailState.enScript = true :: [] ∧
      (enable enFailState).1 = Except.error Err.PinError ∧
      (enable enFailState).2.txTrace = enFailState.txTrace) ∧
    ((disable enFailState).1 = Except.error Err.PinError ∧
      (disable enFailState).2.txTrace = enFailState.txTrace) ∧
    ((move_to 5 enFailState).1 = Except.error Err.PinError ∧
      (move_to 5 enFailState).2.txTrace = enFailState.txTrace) ∧
    (csFailState.csScript = [true, true] ∧
      csFailState.busScript = some [1, 2, 3, 4, 5] :: [] ∧
      (read_io 33 csFailState).1 = Except.ok
        { status := byteAt [1, 2, 3, 4, 5] 0
          data := fromBeBytes (byteAt [1, 2, 3, 4, 5] 1) (byteAt [1, 2, 3, 4, 5] 2)
            (byteAt [1, 2, 3, 4, 5] 3) (byteAt [1, 2, 3, 4, 5] 4)
          debug := [byteAt [1, 2, 3, 4, 5] 0, byteAt [1, 2, 3, 4, 5] 1,
            byteAt [1, 2, 3, 4, 5] 2, byteAt [1, 2, 3, 4, 5] 3,
            byteAt [1, 2, 3, 4, 5] 4] } ∧
      (read_io 33 csFailState).2.txTrace = csFailState.txTrace ++ [readFrame 33]) ∧
    ((write_register 39 [0, 0, 0, 0] csFailState).1 = Except.ok
        { status := byteAt [1, 2, 3, 4, 5] 0
          data := fromBeBytes (byteAt [1, 2, 3, 4, 5] 1) (byteAt [1, 2, 3, 4, 5] 2)
            (byteAt [1, 2, 3, 4, 5] 3) (byteAt [1, 2, 3, 4, 5] 4)
          debug := writeFrame 39 [0, 0, 0, 0] } ∧
      (write_register 39 [0, 0, 0, 0] csFailState).2.txTrace =
        csFailState.txTrace ++ [writeFrame 39 [0, 0, 0, 0]]) :=
  ⟨⟨rfl, rfl,
      (pin_error_enable_only_cs_ignored.1 enFailState [] rfl rfl).1,
      (pin_error_enable_only_cs_ignored.1 enFailState [] rfl rfl).2⟩,
    ⟨(pin_error_enable_only_cs_ignored.2.1 enFailState [] rfl rfl).1,
      (pin_error_enable_only_cs_ignored.2.1 enFailState [] rfl rfl).2⟩,
    ⟨(pin_error_enable_only_cs_ignored.2.2.1 enFailState 5 [] rfl rfl).1,
      (pin_error_enable_only_cs_ignored.2.2.1 enFailState 5 [] rfl rfl).2⟩,
    ⟨rfl, rfl,
      (pin_error_enable_only_cs_ignored.2.2.2.1 csFailState 33
        [1, 2, 3, 4, 5] [] rfl rfl).1,
      (pin_error_enable_only_cs_ignored.2.2.2.1 csFailState 33
        [1, 2, 3, 4, 5] [] rfl rfl).2⟩,
    ⟨(pin_error_enable_only_cs_ignored.2.2.2.2 csFailState 39 [0, 0, 0, 0]
        [1, 2, 3, 4, 5] [] rfl rfl).1,
      (pin_error_enable_only_cs_ignored.2.2.2.2 csFailState 39 [0, 0, 0, 0]
        [1, 2, 3, 4, 5] [] rfl rfl).2⟩⟩

/-- C9 counterexample: with 256 microsteps, `move_to (7/1024)` writes the
truncation 1 of 1.75 to XTARGET, while the rounding formula of the claim
gives 2. -/
theorem move_to_trunc_vs_round_cex :
    (move_to (7 / 1024) (initState [some [9, 9, 9, 9, 9]])).2.txTrace =
      [writeFrame Registers.XTARGET (toBeBytesI32 1)] ∧
    position_to_steps_spec 256 (7 / 1024) = 2 ∧
    position_to_steps_spec 256 (7 / 1024) ≠ 1 := by
  have hcast : i32cast ((7 / 1024 : ℚ) * 256) = 1 := by
    norm_num [i32cast, truncQ]
  have h2 : position_to_steps_spec 256 (7 / 1024) = 2 := by
    norm_num [position_to_steps_spec, round_eq]
  refine ⟨?_, h2, by rw [h2]; decide⟩
  simp [move_to, enable, initState, write_register, transfer, csSet, hcast]

/-- C9 (amended): the position written by `move_to` is the TRUNCATION
toward zero (the saturating `as i32` cast) of `target * microsteps`, not
its rounding; and `get_position` returns the raw register word
reinterpreted as a signed 32-bit integer divided by the microstep count. -/
theorem move_to_truncates_get_position_scales :
    (∀ (s : St) (t : ℚ) (rx : List Nat) (rest : List (Option (List Nat))),
      s.en_present = false → s.csScript = [] → s.busScript = some rx :: rest →
      (move_to t s).2.txTrace = s.txTrace ++
        [writeFrame Registers.XTARGET (toBeBytesI32 (i32cast (t * s.step_count)))]) ∧
    (∀ (s : St) (rx1 rx2 : List Nat) (rest : List (Option (List Nat))),
      s.csScript = [] → s.busScript = some rx1 :: some rx2 :: rest →
      (get_position s).1 = Except.ok
        ((i32ofU32 (fromBeBytes (byteAt rx2 1) (byteAt rx2 2) (byteAt rx2 3)
          (byteAt rx2 4)) : ℚ) / s.step_count)) := by
  constructor
  · intro s t rx rest hp hc hb
    simp [move_to, enable, write_register, transfer, csSet, hp, hc, hb]
  · intro s rx1 rx2 rest hc hb
    simp [get_position, read_register, read_io, transfer, csSet, hc, hb]

/-- Witness for the amended C9 at concrete inputs. -/
theorem move_to_truncates_get_position_scales_witness :
    ((initState [some [9, 9, 9, 9, 9]]).en_present = false ∧
      (initState [some [9, 9, 9, 9, 9]]).csScript = [] ∧
      (initState [some [9, 9, 9, 9, 9]]).busScript = some [9, 9, 9, 9, 9] :: [] ∧
      (move_to (7 / 1024) (initState [some [9, 9, 9, 9, 9]])).2.txTrace =
        (initState [some [9, 9, 9, 9, 9]]).txTrace ++
        [writeFrame Registers.XTARGET (toBeBytesI32 (i32cast ((7 / 1024) *
          (initState [some [9, 9, 9, 9, 9]]).step_count)))]) ∧
    ((get_position (initState [some [0, 0, 0, 0, 0], some [3, 255, 255, 255, 156]])).1 =
      Except.ok
        ((i32ofU32 (fromBeBytes (byteAt [3, 255, 255, 255, 156] 1)
            (byteAt [3, 255, 255, 255, 156] 2) (byteAt [3, 255, 255, 255, 156] 3)
            (byteAt [3, 255, 255, 255, 156] 4)) : ℚ) /
          (initState [some [0, 0, 0, 0, 0], some [3, 255, 255, 255, 156]]).step_count)) :=
  ⟨⟨rfl, rfl, rfl,
      move_to_truncates_get_position_scales.1 (initState [some [9, 9, 9, 9, 9]])
        (7 / 1024) [9, 9, 9, 9, 9] [] rfl rfl rfl⟩,
    move_to_truncates_get_position_scales.2
      (initState [some [0, 0, 0, 0, 0], some [3, 255, 255, 255, 156]])
      [0, 0, 0, 0, 0] [3, 255, 255, 255, 156] [] rfl rfl⟩

/-- A chip-select pin set operation never changes the stored `v_max`. -/
theorem csSet_v_max (lvl : Bool) (s : St) : ((csSet lvl s).2).v_max = s.v_max := by
  rcases s with ⟨bus, cs, en, csl, enl, tx, vm, st, dbg, ck, sc, ep, ei⟩
  rcases cs with _ | ⟨_ | _, csr⟩ <;> rfl

/-- A bus transfer never changes the stored `v_max`. -/
theorem transfer_v_max (tx : List Nat) (s : St) :
    ((transfer tx s).2).v_max = s.v_max := by
  rcases s with ⟨bus, cs, en, csl, enl, tr, vm, st, dbg, ck, sc, ep, ei⟩
  rcases bus with _ | ⟨_ | rx, busr⟩ <;> rfl

/-- A register write never changes the stored `v_max`, whether it
succeeds or fails. -/
theorem write_register_v_max (a : Nat) (val : List Nat) (s : St) :
    ((write_register a val s).2).v_max = s.v_max := by
  simp only [write_register]
  have h1 : ((transfer (writeFrame a val) ((csSet false s).2)).2).v_max = s.v_max := by
    rw [transfer_v_max, csSet_v_max]
  rcases hw : transfer (writeFrame a val) ((csSet false s).2) with ⟨r, s2⟩
  rw [hw] at h1
  cases r with
  | error e => simpa using h1
  | ok response => simp only; rw [csSet_v_max]; simpa using h1

/-- C10: `set_velocity` stores its argument into the `v_max` field before
issuing the bus write, so whatever the bus (and chip-select pin) does —
including a transfer failure — the final state carries `v_max = v`. -/
theorem set_velocity_stores_v_max_before_write (v : ℚ) (s : St) :
    ((set_velocity v s).2).v_max = v := by
  simp only [set_velocity]
  have h1 := write_register_v_max Registers.VMAX
    (toBeBytes (speed_from_hz { s with v_max := v } v)) { s with v_max := v }
  rcases hw : write_register Registers.VMAX
      (toBeBytes (speed_from_hz { s with v_max := v } v)) { s with v_max := v }
    with ⟨r, s1⟩
  rw [hw] at h1
  cases r <;> simpa using h1

end Tmc5160
